import Mathlib

/-!
Verification of the `simple_repository` data-access layer against its design
specification.  The Python source is shallowly embedded: type annotations from
`types.py` become decidable predicates over a universe of runtime values,
the structural protocols from `protocols.py` become member lists with a
structural-satisfaction relation, and the repository operations become pure
state-passing functions over an explicit storage-session model.
-/

/-- A primitive Python runtime value.  A float carries its 64-bit pattern as a
natural number and a UUID its 128-bit integer value; the claims under study
only inspect the kind of these values, never their arithmetic. -/
inductive Prim
  | str (s : String)
  | uuid (u : Nat)
  | int (i : Int)
  | float (bits : Nat)
  | bool (b : Bool)
  deriving DecidableEq, Repr

/-- A Python runtime value, as far as the repository's annotations inspect it.
Every list annotation in the source is the flat `list[PrimitiveValue]`, so the
universe carries primitives, flat lists of primitives, and `None`. -/
inductive PyValue
  | prim (p : Prim)
  | plist (xs : List Prim)
  | pynone
  deriving DecidableEq, Repr

/-- The kind (Python runtime class) of a value. -/
inductive PyKind
  | kstr | kuuid | kint | kfloat | kbool | klist | knone
  deriving DecidableEq, Repr

def PyValue.kindOf : PyValue → PyKind
  | .prim (.str _) => .kstr
  | .prim (.uuid _) => .kuuid
  | .prim (.int _) => .kint
  | .prim (.float _) => .kfloat
  | .prim (.bool _) => .kbool
  | .plist _ => .klist
  | .pynone => .knone

/-- `types.py`: `PrimitiveValue = Union[str, UUID, int, float, bool]`. -/
def PrimitiveValue (v : PyValue) : Bool :=
  match v with
  | .prim _ => true
  | _ => false

/-- `types.py`: `FilterValue = Union[PrimitiveValue, list[PrimitiveValue]]`. -/
def FilterValue (v : PyValue) : Bool :=
  match v with
  | .prim _ => true
  | .plist _ => true
  | _ => false

/-- `types.py`: `IdValue = Union[str, UUID, int]`. -/
def IdValue (v : PyValue) : Bool :=
  match v with
  | .prim (.str _) => true
  | .prim (.uuid _) => true
  | .prim (.int _) => true
  | _ => false

/-- A Python mapping with text keys, as a key-value list (first key wins). -/
abbrev Mapping := List (String × PyValue)

/-- `types.py`: `Filters = dict[str, str]` — the declared Filter Set type
admits a mapping exactly when every value in it is of text kind. -/
def Filters (m : Mapping) : Bool :=
  m.all fun kv =>
    match kv.2 with
    | .prim (.str _) => true
    | _ => false

/-- The Filter Set type as the specification words it: a mapping from field
name (text) to a filter value, a filter value being a primitive
(text/UUID/integer/float/boolean) or a list of primitives.  Stated separately
from the source's `Filters` so the two can be compared. -/
def FilterSetSpec (m : Mapping) : Bool :=
  m.all fun kv => FilterValue kv.2

/-! ## Structural protocols (`protocols.py`)

A Python class shape is embedded as a list of member declarations; a
`typing.Protocol` is itself such a list, and a type satisfies a protocol when
every required member is provided with a compatible annotation (structural
typing: membership by shape, not by inheritance). -/

/-- A type annotation as it appears in `protocols.py` and `types.py`. -/
inductive Ann
  | anyA          -- `Any`
  | strA          -- `str`
  | intA          -- `int`
  | floatA        -- `float`
  | boolA         -- `bool`
  | uuidA         -- `UUID`
  | selfA         -- `Self`
  | dictStrAnyA   -- `dict[str, Any]`
  deriving DecidableEq, Repr

/-- A member declaration of a class or protocol body. -/
inductive Member
  | attr (name : String) (a : Ann)
  | meth (name : String) (params : List Ann) (ret : Ann)
  | classMeth (name : String) (params : List Ann) (ret : Ann)
  deriving DecidableEq, Repr

/-- Whether a required annotation accepts a declared one: `Any` accepts
everything, any other requirement is matched exactly. -/
def annAccepts (required declared : Ann) : Bool :=
  match required with
  | .anyA => true
  | r => r == declared

/-- Whether a declared member fulfils a required protocol member. -/
def fulfils (required declared : Member) : Bool :=
  match required, declared with
  | .attr n a, .attr n2 a2 => n == n2 && annAccepts a a2
  | .meth n ps r, .meth n2 ps2 r2 =>
      n == n2 && ps.length == ps2.length
        && (List.zip ps ps2).all (fun p => annAccepts p.1 p.2) && annAccepts r r2
  | .classMeth n ps r, .classMeth n2 ps2 r2 =>
      n == n2 && ps.length == ps2.length
        && (List.zip ps ps2).all (fun p => annAccepts p.1 p.2) && annAccepts r r2
  | _, _ => false

/-- A type provides a required member when some declared member fulfils it. -/
def provides (t : List Member) (required : Member) : Bool :=
  t.any (fulfils required)

/-- Structural satisfaction: every member the protocol requires is provided. -/
def satisfies (t proto : List Member) : Bool :=
  proto.all (provides t)

/-- `protocols.py`: `class SqlaModel(Protocol)` with `__tablename__: str`
and `id: Any`. -/
def SqlaModel : List Member :=
  [.attr "__tablename__" .strA, .attr "id" .anyA]

/-- `protocols.py`: `class DomainModel(Protocol)` with `id: Any`,
`model_validate(cls, obj: Any, ...) -> Self` and
`model_dump(self, ...) -> dict[str, Any]`. -/
def DomainModel : List Member :=
  [.attr "id" .anyA,
   .classMeth "model_validate" [.anyA] .selfA,
   .meth "model_dump" [] .dictStrAnyA]

/-- `protocols.py`: `class Schema(Protocol)` with
`model_dump(self, ...) -> dict[str, Any]`. -/
def Schema : List Member :=
  [.meth "model_dump" [] .dictStrAnyA]

/-! ## Public surface (`__init__.py`) -/

/-- `__init__.py`: the `__all__` export list, verbatim. -/
def allExports : List String :=
  ["crud_factory", "AsyncCrud", "CRUDRepository", "SqlaModel", "DomainModel",
   "RepositoryException", "NotFoundException", "IntegrityConflictException",
   "DiffAtrrsOnCreateCrud", "SA", "DM", "PrimitiveValue", "FilterValue",
   "IdValue", "Filters"]

/-- `__init__.py` lines 8-13: the names imported from the `exceptions` module,
i.e. the exposed error surface, verbatim. -/
def errorExports : List String :=
  ["RepositoryException", "NotFoundException", "IntegrityConflictException",
   "DiffAtrrsOnCreateCrud"]

/-! ## Error taxonomy

`exceptions.py` is imported by `__init__.py` but its body is not under `src/`,
so the class hierarchy is modelled from the specification; the class NAMES are
taken from the import list in `__init__.py`, which is source. -/

/-- Modelled from the spec: the bodies of the exception classes in
`exceptions.py` are missing from `src/`; the spec's error-handling design says
the taxonomy is rooted at one base kind `RepositoryException` with the other
three kinds beneath it.  The constructor names are the names `__init__.py`
imports from `exceptions`. -/
inductive ExcClass
  | RepositoryException
  | NotFoundException
  | IntegrityConflictException
  | DiffAtrrsOnCreateCrud
  deriving DecidableEq, Repr, Fintype

/-- Modelled from the spec: the immediate superclass of each exception class
inside the taxonomy (`RepositoryException` is the root; its own superclass,
Python's `Exception`, lies outside the taxonomy). -/
def excParent : ExcClass → Option ExcClass
  | .RepositoryException => none
  | .NotFoundException => some .RepositoryException
  | .IntegrityConflictException => some .RepositoryException
  | .DiffAtrrsOnCreateCrud => some .RepositoryException

/-- `c` is catchable by an `except d` clause: `c` equals `d` or is below it in
the (one-level) taxonomy. -/
def catchableAs (c d : ExcClass) : Bool :=
  c == d || excParent c == some d

/-! ## Repository operations

`repository.py` (defining `crud_factory`, `AsyncCrud`, `CRUDRepository`) is
imported by `__init__.py` but is not under `src/`; the operations are modelled
from the specification, sections 4.2-4.6 and 6.  The storage session is a list
of persistence-model rows plus an engine-assigned id counter, and it counts how
often the repository talks to the engine, so that "no storage call was made"
is a provable statement. -/

/-- The typed failure conditions a repository operation can surface. -/
inductive RepoError
  | notFound
  | integrityConflict
  | diffAtrrsOnCreate
  deriving DecidableEq, Repr

/-- Modelled from the spec: the storage session (section 6) holds the PM rows,
an id counter for engine-assigned identifiers, and a count of engine calls. -/
structure Session where
  rows : List Mapping
  nextId : Int
  calls : Nat
  deriving DecidableEq, Repr

/-- First value bound to a key in a mapping, if any. -/
def lookupM : Mapping → String → Option PyValue
  | [], _ => none
  | kv :: rest, key => if kv.1 = key then some kv.2 else lookupM rest key

/-- The keys of a mapping. -/
def keysOf (m : Mapping) : List String := m.map Prod.fst

/-- Whether every key of `m` is among the PM type's declared fields. -/
def attrsSubset (m : Mapping) (fields : List String) : Bool :=
  (keysOf m).all fields.contains

/-- The identifier stored in a PM row. -/
def rowId (r : Mapping) : Option PyValue := lookupM r "id"

/-- First row carrying identifier `i`, if any (the storage engine's fetch-by-id:
not-found yields zero rows, spec section 6). -/
def lookupRow : List Mapping → PyValue → Option Mapping
  | [], _ => none
  | r :: rs, i => if rowId r = some i then some r else lookupRow rs i

/-- The row the engine persists for a create: the supplied attributes, with an
engine-assigned integer identifier when the caller supplied none. -/
def newRow (s : Session) (attrs : Mapping) : Mapping :=
  match lookupM attrs "id" with
  | some _ => attrs
  | none => attrs ++ [("id", PyValue.prim (.int s.nextId))]

/-- The engine's uniqueness constraint on the identifier column: inserting a
row whose id an existing row already carries is a constraint violation. -/
def hasConflict (rows : List Mapping) (row : Mapping) : Bool :=
  match rowId row with
  | some v => (lookupRow rows v).isSome
  | none => false

/-- Modelled from the spec: the repository binding (section 3) — the PM type's
declared fields together with the DM type's conversions: validate-from-mapping,
dump-to-mapping, and the DM identifier field. -/
structure Binding (D : Type) where
  pmFields : List String
  validate : Mapping → D
  dump : D → Mapping
  dmId : D → PyValue

/-- Modelled from the spec, section 4.2 (Create): reject attribute keys outside
the PM fields before any storage call; otherwise perform the one engine write,
which either hits the uniqueness constraint or persists the new row, and return
the DM built from the persisted row via validate-from-mapping. -/
def Binding.create {D : Type} (b : Binding D) (s : Session) (attrs : Mapping) :
    Except RepoError D × Session :=
  if attrsSubset attrs b.pmFields then
    let row := newRow s attrs
    let s1 : Session := { s with calls := s.calls + 1 }
    if hasConflict s.rows row then (.error .integrityConflict, s1)
    else (.ok (b.validate row), { s1 with rows := s.rows ++ [row], nextId := s.nextId + 1 })
  else (.error .diffAtrrsOnCreate, s)

/-- Modelled from the spec, section 4.3 (Get by Identifier): fetch the row by
id through the engine; absence is surfaced as `notFound`, never as a null. -/
def Binding.get {D : Type} (b : Binding D) (s : Session) (i : PyValue) :
    Except RepoError D × Session :=
  let s1 : Session := { s with calls := s.calls + 1 }
  match lookupRow s.rows i with
  | some r => (.ok (b.validate r), s1)
  | none => (.error .notFound, s1)

/-- Sets key `k` to `v` in every binding of the row (the partial update of one
field). -/
def setField (r : Mapping) (k : String) (v : PyValue) : Mapping :=
  r.map fun kv => if kv.1 = k then (kv.1, v) else kv

/-- Applies a partial update, field by field. -/
def applyUpdate (r : Mapping) (attrs : Mapping) : Mapping :=
  attrs.foldl (fun acc kv => setField acc kv.1 kv.2) r

/-- Modelled from the spec, section 4.5 (Update): `notFound` when the
identifier resolves to no row; otherwise the engine applies the partial update,
which either violates the id-uniqueness constraint or succeeds, and the updated
DM is read back. -/
def Binding.update {D : Type} (b : Binding D) (s : Session) (i : PyValue)
    (attrs : Mapping) : Except RepoError D × Session :=
  let s1 : Session := { s with calls := s.calls + 1 }
  match lookupRow s.rows i with
  | none => (.error .notFound, s1)
  | some r =>
      let r2 := applyUpdate r attrs
      if rowId r2 ≠ some i && hasConflict s.rows r2 then (.error .integrityConflict, s1)
      else
        (.ok (b.validate r2),
         { s1 with rows := s.rows.map fun row => if rowId row = some i then r2 else row })

/-- Modelled from the spec, section 4.6 (Delete): remove the row by identifier;
a missing identifier is always `notFound`, never a silent no-op. -/
def Binding.delete {D : Type} (_b : Binding D) (s : Session) (i : PyValue) :
    Except RepoError Unit × Session :=
  let s1 : Session := { s with calls := s.calls + 1 }
  match lookupRow s.rows i with
  | some _ => (.ok (), { s1 with rows := s.rows.filter fun r => rowId r ≠ some i })
  | none => (.error .notFound, s1)

/-- A repository instance: the (PM type, DM type) pair fixed at
factory-invocation time. -/
structure BoundRepo where
  pm : List Member
  dm : List Member
  deriving DecidableEq, Repr

/-- Modelled from the spec, section 4.1 (Repository Factory): `crud_factory` is
exported by `__init__.py` but `repository.py` is not under `src/`.  The factory
takes a PM type and a DM type, checks the structural contracts (a type-level
precondition, no data involved), and returns the repository bound to the pair,
or fails fatally. -/
def crud_factory (pm dm : List Member) : Option BoundRepo :=
  if satisfies pm SqlaModel && satisfies dm DomainModel then some ⟨pm, dm⟩ else none

/-! ## Theorems -/

/-- C1 (counterexample): the public surface does not expose an error kind named
`DiffAttrsOnCreateException`; the fourth exposed error name is the misspelled
`DiffAtrrsOnCreateCrud`. -/
theorem c1_diffAttrs_exception_name_not_exposed :
    ¬ ("DiffAttrsOnCreateException" ∈ errorExports) ∧
    ¬ ("DiffAttrsOnCreateException" ∈ allExports) ∧
    ("DiffAtrrsOnCreateCrud" ∈ errorExports) := by decide

/-- C1 (amended): the public error surface exposes exactly the four typed error
kinds `RepositoryException` (the base), `NotFoundException`,
`IntegrityConflictException`, and `DiffAtrrsOnCreateCrud`, each catchable by
type, with the latter three rooted at the base kind. -/
theorem c1_error_surface :
    errorExports = ["RepositoryException", "NotFoundException",
      "IntegrityConflictException", "DiffAtrrsOnCreateCrud"] ∧
    (∀ n ∈ errorExports, n ∈ allExports) ∧
    (∀ c : ExcClass, catchableAs c c = true) ∧
    catchableAs .NotFoundException .RepositoryException = true ∧
    catchableAs .IntegrityConflictException .RepositoryException = true ∧
    catchableAs .DiffAtrrsOnCreateCrud .RepositoryException = true := by decide

/-- C2 (code evaluated at the failing input): the spec's Filter Set admits the
mapping `{"region": ["us", "eu"]}` — and the source's own `FilterValue` type
admits the value — but the declared `Filters = dict[str, str]` rejects it,
as it rejects every non-text filter value such as `{"count": 3}`. -/
theorem c2_filters_rejects_spec_filter_set :
    FilterSetSpec [("region", PyValue.plist [.str "us", .str "eu"])] = true ∧
    FilterValue (PyValue.plist [.str "us", .str "eu"]) = true ∧
    Filters [("region", PyValue.plist [.str "us", .str "eu"])] = false ∧
    FilterSetSpec [("count", PyValue.prim (.int 3))] = true ∧
    Filters [("count", PyValue.prim (.int 3))] = false := by decide

/-- C6: the `IdValue` type admits a value exactly when its kind is text, UUID,
or integer. -/
theorem c6_idValue_exactly_three_kinds (v : PyValue) :
    IdValue v = true ↔
      v.kindOf = PyKind.kstr ∨ v.kindOf = PyKind.kuuid ∨ v.kindOf = PyKind.kint := by
  cases v with
  | prim p => cases p <;> simp [IdValue, PyValue.kindOf]
  | plist xs => simp [IdValue, PyValue.kindOf]
  | pynone => simp [IdValue, PyValue.kindOf]

/-- C7: the `SqlaModel` contract consists of exactly two attribute
requirements — the text-typed `__tablename__` and the unrestricted `id` — has
no method requirement, and a type satisfies it exactly when it provides those
two attributes. -/
theorem c7_sqlaModel_contract :
    SqlaModel = [Member.attr "__tablename__" Ann.strA, Member.attr "id" Ann.anyA] ∧
    (∀ m ∈ SqlaModel, ∃ n a, m = Member.attr n a) ∧
    (∀ t : List Member,
      satisfies t SqlaModel = true ↔
        (provides t (Member.attr "__tablename__" Ann.strA) = true ∧
         provides t (Member.attr "id" Ann.anyA) = true)) := by
  refine ⟨rfl, ?_, ?_⟩
  · intro m hm
    simp only [SqlaModel, List.mem_cons, List.not_mem_nil, or_false] at hm
    rcases hm with h | h <;> exact ⟨_, _, h⟩
  · intro t
    simp [satisfies, SqlaModel]

/-- C8: the `DomainModel` contract consists of exactly three requirements — the
unrestricted `id` attribute, the class-level `model_validate` taking an
arbitrary input and returning an instance of the type itself, and the
instance-level `model_dump` returning a text-keyed mapping — and a type
satisfies it exactly when it provides those three. -/
theorem c8_domainModel_contract :
    DomainModel = [Member.attr "id" Ann.anyA,
      Member.classMeth "model_validate" [Ann.anyA] Ann.selfA,
      Member.meth "model_dump" [] Ann.dictStrAnyA] ∧
    (∀ t : List Member,
      satisfies t DomainModel = true ↔
        (provides t (Member.attr "id" Ann.anyA) = true ∧
         provides t (Member.classMeth "model_validate" [Ann.anyA] Ann.selfA) = true ∧
         provides t (Member.meth "model_dump" [] Ann.dictStrAnyA) = true)) := by
  refine ⟨rfl, ?_⟩
  intro t
  simp [satisfies, DomainModel, and_assoc]

/-- An example type whose identifier is annotated `float`, a kind outside the
`IdValue` union, yet which declares every member the two contracts require. -/
def floatIdType : List Member :=
  [.attr "__tablename__" .strA, .attr "id" .floatA,
   .classMeth "model_validate" [.anyA] .selfA,
   .meth "model_dump" [] .dictStrAnyA]

/-- C10: both contracts require `id` at the unrestricted `Any` annotation,
which accepts every annotation, so the float-identified `floatIdType`
satisfies both contracts even though a float is not an `IdValue`. -/
theorem c10_id_field_unconstrained :
    (Member.attr "id" Ann.anyA ∈ SqlaModel) ∧
    (Member.attr "id" Ann.anyA ∈ DomainModel) ∧
    (∀ a : Ann, annAccepts Ann.anyA a = true) ∧
    satisfies floatIdType SqlaModel = true ∧
    satisfies floatIdType DomainModel = true ∧
    IdValue (PyValue.prim (.float 0)) = false := by
  refine ⟨by decide, by decide, fun a => rfl, by decide, by decide, by decide⟩

/-- C9: the factory returns the repository bound to the supplied (PM, DM) pair
when both types satisfy their structural contracts, and fails (returns
nothing) when either does not; the check consults only the types, no data. -/
theorem c9_crud_factory_contract (pm dm : List Member) :
    (satisfies pm SqlaModel = true → satisfies dm DomainModel = true →
      crud_factory pm dm = some ⟨pm, dm⟩) ∧
    (satisfies pm SqlaModel = false ∨ satisfies dm DomainModel = false →
      crud_factory pm dm = none) := by
  constructor
  · intro h1 h2
    simp [crud_factory, h1, h2]
  · rintro (h | h) <;> simp [crud_factory, h]

/-- An example PM type: an integer-identified table. -/
def pmEx : List Member :=
  [.attr "__tablename__" .strA, .attr "id" .intA]

/-- An example DM type: an integer-identified pydantic-style model. -/
def dmEx : List Member :=
  [.attr "id" .intA,
   .classMeth "model_validate" [.anyA] .selfA,
   .meth "model_dump" [] .dictStrAnyA]

/-- C9 witness: at the concrete pair (`pmEx`, `dmEx`), both contracts hold and
the factory returns the repository bound to the pair. -/
theorem c9_crud_factory_contract_witness :
    crud_factory pmEx dmEx = some ⟨pmEx, dmEx⟩ :=
  (c9_crud_factory_contract pmEx dmEx).1 (by decide) (by decide)

/-- C3: on an identifier that resolves to no stored row, get, update and
delete each surface the typed `notFound` error — never a null result for get,
never a silent no-op for delete. -/
theorem c3_missing_id_raises_notFound {D : Type} (b : Binding D) (s : Session)
    (i : PyValue) (attrs : Mapping) (h : lookupRow s.rows i = none) :
    (b.get s i).1 = .error .notFound ∧
    (b.update s i attrs).1 = .error .notFound ∧
    (b.delete s i).1 = .error .notFound := by
  refine ⟨?_, ?_, ?_⟩ <;> simp [Binding.get, Binding.update, Binding.delete, h]

/-- An example binding: PM fields `id` and `name`, with the DM carried as the
row mapping itself, dumped as itself, identified by its `id` entry. -/
def bEx : Binding Mapping :=
  ⟨["id", "name"], fun m => m, fun d => d, fun d => (lookupM d "id").getD .pynone⟩

/-- The empty storage session. -/
def sEmpty : Session := ⟨[], 1, 0⟩

/-- C3 witness: in the empty session, identifier 7 is absent and all three
operations report `notFound`. -/
theorem c3_missing_id_raises_notFound_witness :
    (bEx.get sEmpty (.prim (.int 7))).1 = .error .notFound ∧
    (bEx.update sEmpty (.prim (.int 7)) [("name", .prim (.str "x"))]).1 = .error .notFound ∧
    (bEx.delete sEmpty (.prim (.int 7))).1 = .error .notFound :=
  c3_missing_id_raises_notFound bEx sEmpty (.prim (.int 7))
    [("name", .prim (.str "x"))] rfl

/-- C4: when the supplied attributes contain a key that is not a PM field,
create surfaces the typed `diffAtrrsOnCreate` error and returns the session
exactly as it was — same rows and same engine-call count, so the check fired
before any storage call and no write happened. -/
theorem c4_create_unknown_key {D : Type} (b : Binding D) (s : Session)
    (attrs : Mapping) (h : ∃ k ∈ keysOf attrs, k ∉ b.pmFields) :
    b.create s attrs = (.error .diffAtrrsOnCreate, s) := by
  obtain ⟨k, hk, hnot⟩ := h
  have hsub : attrsSubset attrs b.pmFields = false := by
    cases hca : attrsSubset attrs b.pmFields
    · rfl
    · exfalso
      have := List.all_eq_true.mp hca k hk
      simp at this
      exact hnot this
  simp [Binding.create, hsub]

/-- C4 witness: creating with the misspelled key `nmae` (not among the PM
fields `id`, `name`) fails with `diffAtrrsOnCreate` and leaves the empty
session untouched. -/
theorem c4_create_unknown_key_witness :
    bEx.create sEmpty [("nmae", .prim (.str "x"))] = (.error .diffAtrrsOnCreate, sEmpty) :=
  c4_create_unknown_key bEx sEmpty [("nmae", .prim (.str "x"))]
    ⟨"nmae", by decide, by decide⟩

theorem lookupM_cons (kv : String × PyValue) (rest : Mapping) (k : String) :
    lookupM (kv :: rest) k = if kv.1 = k then some kv.2 else lookupM rest k := rfl

theorem lookupRow_cons (r : Mapping) (rs : List Mapping) (i : PyValue) :
    lookupRow (r :: rs) i = if rowId r = some i then some r else lookupRow rs i := rfl

theorem lookupM_append_right (m m2 : Mapping) (k : String)
    (h : lookupM m k = none) : lookupM (m ++ m2) k = lookupM m2 k := by
  induction m with
  | nil => rfl
  | cons kv rest ih =>
      rw [List.cons_append, lookupM_cons]
      rw [lookupM_cons] at h
      by_cases hk : kv.1 = k
      · rw [if_pos hk] at h; exact absurd h (by simp)
      · rw [if_neg hk] at h ⊢
        exact ih h

theorem newRow_rowId (s : Session) (attrs : Mapping) :
    ∃ v, rowId (newRow s attrs) = some v := by
  cases h : lookupM attrs "id" with
  | some v => exact ⟨v, by simp [newRow, rowId, h]⟩
  | none =>
      refine ⟨.prim (.int s.nextId), ?_⟩
      simp only [newRow, rowId, h]
      rw [lookupM_append_right _ _ _ h]
      rfl

theorem lookupRow_append_singleton (rows : List Mapping) (row : Mapping)
    (v : PyValue) (hnone : lookupRow rows v = none) (hid : rowId row = some v) :
    lookupRow (rows ++ [row]) v = some row := by
  induction rows with
  | nil => simp [lookupRow, hid]
  | cons r rs ih =>
      rw [List.cons_append, lookupRow_cons]
      rw [lookupRow_cons] at hnone
      by_cases hr : rowId r = some v
      · rw [if_pos hr] at hnone; exact absurd hnone (by simp)
      · rw [if_neg hr] at hnone ⊢; exact ih hnone

theorem hasConflict_false_lookupRow (rows : List Mapping) (row : Mapping)
    (v : PyValue) (hc : hasConflict rows row = false) (hid : rowId row = some v) :
    lookupRow rows v = none := by
  simp only [hasConflict, hid] at hc
  cases h : lookupRow rows v with
  | none => rfl
  | some r => rw [h] at hc; simp at hc

/-- C5: whenever create succeeds with DM instance `d`, getting `d`'s
identifier from the resulting session succeeds and returns a DM instance whose
dump-to-mapping result equals `d`'s dump-to-mapping result.  The hypothesis is
the spec's section-3 invariant that validate-from-mapping preserves the stored
identifier (`dm.id == pm.id`). -/
theorem c5_create_get_round_trip {D : Type} (b : Binding D)
    (hId : ∀ m v, rowId m = some v → b.dmId (b.validate m) = v)
    (s : Session) (attrs : Mapping) (d : D) (s2 : Session)
    (h : b.create s attrs = (.ok d, s2)) :
    ((b.get s2 (b.dmId d)).1).map b.dump = .ok (b.dump d) := by
  simp only [Binding.create] at h
  by_cases hsub : attrsSubset attrs b.pmFields
  · rw [if_pos hsub] at h
    by_cases hc : hasConflict s.rows (newRow s attrs)
    · rw [if_pos hc] at h
      exact absurd (congrArg Prod.fst h) (by simp)
    · rw [if_neg hc] at h
      simp only [Prod.mk.injEq] at h
      obtain ⟨h1, h2⟩ := h
      have hd : b.validate (newRow s attrs) = d := by
        injection h1
      subst h2
      obtain ⟨v, hv⟩ := newRow_rowId s attrs
      have hnone : lookupRow s.rows v = none :=
        hasConflict_false_lookupRow _ _ _ (by simpa using hc) hv
      have hdm : b.dmId d = v := by rw [← hd]; exact hId _ _ hv
      rw [hdm]
      simp only [Binding.get]
      rw [lookupRow_append_singleton s.rows _ v hnone hv]
      simp [hd, Except.map]
  · rw [if_neg hsub] at h
    exact absurd (congrArg Prod.fst h) (by simp)

/-- The attributes of the C5 witness create call. -/
def attrsEx : Mapping := [("name", .prim (.str "bob"))]

/-- The row the engine persists for `attrsEx`: the caller gave no id, so the
engine assigns integer id 1; with `bEx` this mapping is also the DM returned. -/
def dEx : Mapping := [("name", .prim (.str "bob")), ("id", .prim (.int 1))]

/-- The session after the C5 witness create: one row, next id 2, one call. -/
def sAfterEx : Session := ⟨[dEx], 2, 1⟩

/-- C5 witness: the concrete create of `attrsEx` in the empty session returns
`dEx`, and getting `dEx`'s identifier afterwards dumps to the same mapping. -/
theorem c5_create_get_round_trip_witness :
    ((bEx.get sAfterEx (bEx.dmId dEx)).1).map bEx.dump = .ok (bEx.dump dEx) :=
  c5_create_get_round_trip bEx
    (fun m v h => by
      have h2 : lookupM m "id" = some v := h
      simp [bEx, h2])
    sEmpty attrsEx dEx sAfterEx rfl
